import Mathlib

/-!
Shallow embedding of `src/nodes.py` (ComfyUI LivePortrait node glue) and
verification of the specification claims about it.

The embedding models:
* `LivePortraitProcess.process` (lines 278-355) as an event trace plus an
  error result;
* the mask-template selection (lines 315-322) as a pure function on an
  optional mask;
* the driving-image preparation (lines 324-326) as a pure function on an
  image-batch descriptor;
* `LivePortraitCropper.process` (lines 387-436): the positional argument
  lists of the two `crop_single_image` calls, and the detector lifecycle
  (lazy init / reuse / release) as a state machine;
* `DownloadAndLoadLivePortraitModels.loadmodel` (lines 84-103, 224-227):
  dtype resolution and the `flag_use_half_precision` choice;
* `KeypointScaler.process` (lines 492-523): the landmark transform over
  exact rational arithmetic, and its in-place update of the CROPINFO
  object, modelled with an explicit store.
-/

namespace LivePortrait

/-- The configuration fields of `pipeline.live_portrait_wrapper.cfg` that
`LivePortraitProcess.process` writes (lines 299-322). -/
inductive CfgField
  | flagEyeRetargeting
  | eyesRetargetingMultiplier
  | flagLipRetargeting
  | lipRetargetingMultiplier
  | flagStitching
  | flagRelative
  | flagLipZero
  | lipZeroThreshold
  | maskCrop
deriving DecidableEq, Fintype

/-- Observable events of one `LivePortraitProcess.process` invocation, in
program order. `pipelineExecute` is the call to `pipeline.execute`
(line 331), which contains the per-frame loop and all cropping /
network-inference work. -/
inductive PEvent
  | setCfg (f : CfgField)
  | warnLipZero
  | infoDefaultMask
  | resampleDriving256
  | castDrivingHalf
  | pipelineExecute
deriving DecidableEq

/-- Errors raised by `LivePortraitProcess.process`. -/
inductive LPError
  | lengthError
deriving DecidableEq

/-- The inputs of `LivePortraitProcess.process` that determine its control
flow (lines 278-336). -/
structure ProcessArgs where
  sourceCount : Nat
  drivingCount : Nat
  lip_zero : Bool
  eye_retargeting : Bool
  lip_retargeting : Bool
  maskProvided : Bool
  flag_use_half_precision : Bool
deriving DecidableEq

/-- Event trace of the body of `LivePortraitProcess.process` after the
length check has passed, translated line by line from lines 299-336:
the eight scalar config writes (299-310), the conditional warning
(312-313), the mask-crop write (315-322), the 256x256 resample (324) and
the optional half-precision cast (325-326), then `pipeline.execute`
(line 331). -/
def successTrace (lip_zero eye_retargeting lip_retargeting maskProvided
    flag_use_half_precision : Bool) : List PEvent :=
  [PEvent.setCfg .flagEyeRetargeting,
   PEvent.setCfg .eyesRetargetingMultiplier,
   PEvent.setCfg .flagLipRetargeting,
   PEvent.setCfg .lipRetargetingMultiplier,
   PEvent.setCfg .flagStitching,
   PEvent.setCfg .flagRelative,
   PEvent.setCfg .flagLipZero,
   PEvent.setCfg .lipZeroThreshold]
  ++ (if lip_zero && (lip_retargeting || eye_retargeting)
      then [PEvent.warnLipZero] else [])
  ++ (if maskProvided then [PEvent.setCfg .maskCrop]
      else [PEvent.infoDefaultMask, PEvent.setCfg .maskCrop])
  ++ [PEvent.resampleDriving256]
  ++ (if flag_use_half_precision then [PEvent.castDrivingHalf] else [])
  ++ [PEvent.pipelineExecute]

/-- `LivePortraitProcess.process`: the length check of lines 295-296
(`if driving_images.shape[0] < source_image.shape[0]: raise ValueError`)
guards the whole body; a raise yields an empty trace (no work performed)
and no output. -/
def processTrace (a : ProcessArgs) : List PEvent × Except LPError Unit :=
  if a.drivingCount < a.sourceCount then
    ([], Except.error LPError.lengthError)
  else
    (successTrace a.lip_zero a.eye_retargeting a.lip_retargeting
      a.maskProvided a.flag_use_half_precision, Except.ok ())

end LivePortrait

namespace LivePortrait

/-- C1 -/
theorem process_short_driving_fails_early (a : ProcessArgs)
    (h : a.drivingCount < a.sourceCount) :
    processTrace a = ([], Except.error LPError.lengthError) := by
  simp [processTrace, h]

/-- Witness for C1: the spec's error scenario driving_count=2,
source_count=5 raises the length error with an empty trace. -/
theorem process_short_driving_fails_early_witness :
    processTrace ⟨5, 2, true, false, false, false, true⟩
      = ([], Except.error LPError.lengthError) :=
  process_short_driving_fails_early ⟨5, 2, true, false, false, false, true⟩
    (by decide)

/-- Every successful trace is a prefix of config writes and other
pre-work events followed by the single `pipelineExecute` event, with all
nine config fields written in the prefix. -/
theorem successTrace_shape (lz er lr mp hp : Bool) :
    (successTrace lz er lr mp hp).getLast? = some PEvent.pipelineExecute
    ∧ ∀ f : CfgField,
        PEvent.setCfg f ∈ (successTrace lz er lr mp hp).dropLast := by
  revert lz er lr mp hp
  decide

/-- C4 -/
theorem cfg_fields_written_before_execute (a : ProcessArgs)
    (h : ¬ a.drivingCount < a.sourceCount) :
    ((processTrace a).1.getLast? = some PEvent.pipelineExecute)
    ∧ (∀ f : CfgField, PEvent.setCfg f ∈ (processTrace a).1.dropLast) := by
  simp only [processTrace, if_neg h]
  exact successTrace_shape a.lip_zero a.eye_retargeting a.lip_retargeting
    a.maskProvided a.flag_use_half_precision

/-- Witness for C4 at a concrete invocation: the trace ends with the
`pipeline.execute` call and, for instance, the `flag_relative` and
`mask_crop` writes happen strictly before it. -/
theorem cfg_fields_written_before_execute_witness :
    ((processTrace ⟨1, 3, true, false, true, true, false⟩).1.getLast?
        = some PEvent.pipelineExecute)
    ∧ (PEvent.setCfg CfgField.flagRelative ∈
        (processTrace ⟨1, 3, true, false, true, true, false⟩).1.dropLast)
    ∧ (PEvent.setCfg CfgField.maskCrop ∈
        (processTrace ⟨1, 3, true, false, true, true, false⟩).1.dropLast) :=
  ⟨(cfg_fields_written_before_execute ⟨1, 3, true, false, true, true, false⟩
      (by decide)).1,
   (cfg_fields_written_before_execute ⟨1, 3, true, false, true, true, false⟩
      (by decide)).2 CfgField.flagRelative,
   (cfg_fields_written_before_execute ⟨1, 3, true, false, true, true, false⟩
      (by decide)).2 CfgField.maskCrop⟩

/-- C2 -/
theorem lip_zero_warning_condition_inverted :
    (PEvent.warnLipZero ∉
      (processTrace ⟨1, 1, true, false, false, false, false⟩).1)
    ∧ (PEvent.warnLipZero ∈
      (processTrace ⟨1, 1, true, true, false, false, false⟩).1) := by
  decide

/-- `float -> uint8` conversion of `(crop_mask * 255).astype(np.uint8)`
(line 317): truncation toward zero then wrap modulo 256; for the host's
mask values `v` with `0 ≤ v`, truncation toward zero is the floor. -/
def npUint8 (v : ℚ) : ℕ := (Int.toNat ⌊v * 255⌋) % 256

/-- Lines 316-318: `crop_mask = mask[0].cpu().numpy()`,
`crop_mask = (crop_mask * 255).astype(np.uint8)`,
`crop_mask = np.repeat(np.atleast_3d(crop_mask), 3, axis=2)`.
A mask is a list of frames, each frame a list of pixel values; the result
is, per pixel of the first frame, a list of 3 identical byte channels. -/
def maskCropFromMask (frames : List (List ℚ)) : List (List ℕ) :=
  (frames.headD []).map (fun v => List.replicate 3 (npUint8 v))

/-- Lines 315-322: the value written to
`pipeline.live_portrait_wrapper.cfg.mask_crop` — derived from the first
frame of the supplied mask tensor when one is given, otherwise the
bundled default mask template (`cv2.imread(... mask_template.png)`,
whose pixel data lives outside `src/` and is passed in here as `tmpl`). -/
def computeMaskCrop (tmpl : List (List ℕ)) (mask : Option (List (List ℚ))) :
    List (List ℕ) :=
  match mask with
  | some frames => maskCropFromMask frames
  | none => tmpl

/-- C5 -/
theorem mask_crop_selection (tmpl : List (List ℕ)) (f : List ℚ)
    (rest rest2 : List (List ℚ)) :
    (computeMaskCrop tmpl (some (f :: rest))
        = computeMaskCrop tmpl (some (f :: rest2)))
    ∧ ((computeMaskCrop tmpl (some (f :: rest))).length = f.length)
    ∧ (∀ px ∈ computeMaskCrop tmpl (some (f :: rest)),
        px.length = 3 ∧ ∀ c ∈ px, c < 256)
    ∧ (∀ i : Fin f.length,
        (computeMaskCrop tmpl (some (f :: rest))).get
            ⟨i, by simp [computeMaskCrop, maskCropFromMask]⟩
          = List.replicate 3 (npUint8 (f.get i)))
    ∧ (computeMaskCrop tmpl none = tmpl) := by
  refine ⟨rfl, by simp [computeMaskCrop, maskCropFromMask], ?_, ?_, rfl⟩
  · intro px hpx
    simp only [computeMaskCrop, maskCropFromMask, List.headD_cons,
      List.mem_map] at hpx
    obtain ⟨v, _, rfl⟩ := hpx
    refine ⟨by simp, ?_⟩
    intro c hc
    simp only [List.mem_replicate] at hc
    rw [hc.2]
    exact Nat.mod_lt _ (by norm_num)
  · intro i
    simp [computeMaskCrop, maskCropFromMask, List.get_eq_getElem,
      List.getElem_map]

/-- Witness for C5: a one-pixel one-frame mask of value 1/2 yields the
3-channel byte pixel, and with no mask the template [[9]] is used. -/
theorem mask_crop_selection_witness :
    ((List.replicate 3 (npUint8 (1/2))).length = 3)
    ∧ (npUint8 (1/2) < 256)
    ∧ (computeMaskCrop [[9]] none = [[9]]) :=
  ⟨((mask_crop_selection [[9]] [1/2] [] []).2.2.1
      (List.replicate 3 (npUint8 (1/2)))
      (by simp [computeMaskCrop, maskCropFromMask])).1,
   ((mask_crop_selection [[9]] [1/2] [] []).2.2.1
      (List.replicate 3 (npUint8 (1/2)))
      (by simp [computeMaskCrop, maskCropFromMask])).2
      (npUint8 (1/2)) (by simp),
   (mask_crop_selection [[9]] [1/2] [] []).2.2.2.2⟩

/-- Image-batch descriptor: frame count, spatial size and dtype of a
torch tensor, as far as the claims need it. -/
inductive TorchDType
  | fp32
  | fp16
deriving DecidableEq

structure ImgBatch where
  n : ℕ
  h : ℕ
  w : ℕ
  dtype : TorchDType
deriving DecidableEq

/-- `comfy.utils.common_upscale(..., width, height, "lanczos", "disabled")`
modelled from its host contract: resamples every frame to the requested
width and height, keeping count and dtype. -/
def common_upscale (img : ImgBatch) (width height : ℕ) : ImgBatch :=
  { img with w := width, h := height }

/-- Lines 324-326: `driving_images_256 = comfy.utils.common_upscale(
driving_images.permute(0, 3, 1, 2), 256, 256, "lanczos", "disabled")`
followed by the half-precision cast when
`pipeline.live_portrait_wrapper.cfg.flag_use_half_precision` is set. -/
def prepDriving (flag_use_half_precision : Bool) (driving : ImgBatch) :
    ImgBatch :=
  let driving_images_256 := common_upscale driving 256 256
  if flag_use_half_precision then
    { driving_images_256 with dtype := TorchDType.fp16 }
  else
    driving_images_256

/-- In every successful trace the 256x256 resample happens strictly
before `pipeline.execute`. -/
theorem successTrace_resample_before_execute (lz er lr mp hp : Bool) :
    (successTrace lz er lr mp hp).indexOf PEvent.resampleDriving256
      < (successTrace lz er lr mp hp).indexOf PEvent.pipelineExecute := by
  revert lz er lr mp hp
  decide

/-- C6 -/
theorem driving_prepared_256_and_half (flag : Bool) (img : ImgBatch) :
    (prepDriving flag img).h = 256
    ∧ (prepDriving flag img).w = 256
    ∧ (prepDriving flag img).n = img.n
    ∧ (img.dtype = TorchDType.fp32 →
        ((prepDriving flag img).dtype = TorchDType.fp16 ↔ flag = true))
    ∧ (∀ a : ProcessArgs, ¬ a.drivingCount < a.sourceCount →
        (processTrace a).1.indexOf PEvent.resampleDriving256
          < (processTrace a).1.indexOf PEvent.pipelineExecute) := by
  refine ⟨?_, ?_, ?_, ?_, ?_⟩
  · cases flag <;> rfl
  · cases flag <;> rfl
  · cases flag <;> rfl
  · intro hd
    cases flag <;> simp [prepDriving, common_upscale, hd]
  · intro a h
    simp only [processTrace, if_neg h]
    exact successTrace_resample_before_execute a.lip_zero a.eye_retargeting
      a.lip_retargeting a.maskProvided a.flag_use_half_precision

/-- Witness for C6 at a concrete invocation: a 4-frame fp32 batch of
480x640 driving images is resampled to 256x256 and cast to fp16 under
the half-precision flag, and the resample precedes `pipeline.execute`
in the trace of a concrete passing invocation. -/
theorem driving_prepared_256_and_half_witness :
    ((prepDriving true ⟨4, 480, 640, TorchDType.fp32⟩).h = 256)
    ∧ ((prepDriving true ⟨4, 480, 640, TorchDType.fp32⟩).w = 256)
    ∧ ((prepDriving true ⟨4, 480, 640, TorchDType.fp32⟩).n = 4)
    ∧ ((prepDriving true ⟨4, 480, 640, TorchDType.fp32⟩).dtype
        = TorchDType.fp16)
    ∧ ((processTrace ⟨1, 3, true, false, false, false, true⟩).1.indexOf
          PEvent.resampleDriving256
        < (processTrace ⟨1, 3, true, false, false, false, true⟩).1.indexOf
          PEvent.pipelineExecute) :=
  ⟨(driving_prepared_256_and_half true ⟨4, 480, 640, TorchDType.fp32⟩).1,
   (driving_prepared_256_and_half true ⟨4, 480, 640, TorchDType.fp32⟩).2.1,
   (driving_prepared_256_and_half true
      ⟨4, 480, 640, TorchDType.fp32⟩).2.2.1,
   ((driving_prepared_256_and_half true
      ⟨4, 480, 640, TorchDType.fp32⟩).2.2.2.1 rfl).mpr rfl,
   (driving_prepared_256_and_half true
      ⟨4, 480, 640, TorchDType.fp32⟩).2.2.2.2
      ⟨1, 3, true, false, false, false, true⟩ (by decide)⟩

/-- The positional argument list handed to `cropper.crop_single_image`
after the image, read in the order of the spec contract
`crop(image, dsize, scale, vx_ratio, vy_ratio, face_index, rotate)`:
`ratioArg4` is the value occupying the contract's `vx_ratio` position
(4th argument) and `ratioArg5` the one in its `vy_ratio` position. -/
structure CropCallArgs where
  dsize : ℕ
  scale : ℚ
  ratioArg4 : ℚ
  ratioArg5 : ℚ
  face_index : ℕ
  rotate : Bool
deriving DecidableEq

/-- Line 408: `self.cropper.crop_single_image(source_image_np[i], dsize,
scale, vy_ratio, vx_ratio, face_index, rotate)` — the arguments the node
passes for the source-image crop, given its `vx_ratio` and `vy_ratio`
inputs. -/
def sourceCropCall (dsize : ℕ) (scale vx_ratio vy_ratio : ℚ)
    (face_index : ℕ) (rotate : Bool) : CropCallArgs :=
  ⟨dsize, scale, vy_ratio, vx_ratio, face_index, rotate⟩

/-- Line 414: `self.cropper.crop_single_image(driving_images_np[i], dsize,
scale, vy_ratio, vx_ratio, face_index, rotate)` — the arguments for the
optional driving-image crop. -/
def drivingCropCall (dsize : ℕ) (scale vx_ratio vy_ratio : ℚ)
    (face_index : ℕ) (rotate : Bool) : CropCallArgs :=
  ⟨dsize, scale, vy_ratio, vx_ratio, face_index, rotate⟩

/-- Counterexample to C3: at the node's default inputs vx_ratio = 0,
vy_ratio = -1/8, the value in the contract's `vx_ratio` position is
-1/8, not the node's vx_ratio input 0. -/
theorem crop_call_vx_position_counterexample :
    (sourceCropCall 512 (23/10) 0 (-1/8) 0 true).ratioArg4 ≠ (0 : ℚ) := by
  norm_num [sourceCropCall]

/-- C3 (amended): both crop calls pass the node's vy_ratio input in the
contract's `vx_ratio` position and the node's vx_ratio input in the
contract's `vy_ratio` position — the two ratio arguments are swapped
relative to the `crop(image, dsize, scale, vx_ratio, vy_ratio,
face_index, rotate)` contract — identically for the source-image and
driving-image crops. -/
theorem crop_call_ratio_args_swapped (dsize : ℕ) (scale vx vy : ℚ)
    (fi : ℕ) (rot : Bool) :
    ((sourceCropCall dsize scale vx vy fi rot).ratioArg4 = vy)
    ∧ ((sourceCropCall dsize scale vx vy fi rot).ratioArg5 = vx)
    ∧ ((drivingCropCall dsize scale vx vy fi rot).ratioArg4 = vy)
    ∧ ((drivingCropCall dsize scale vx vy fi rot).ratioArg5 = vx)
    ∧ (drivingCropCall dsize scale vx vy fi rot
        = sourceCropCall dsize scale vx vy fi rot) :=
  ⟨rfl, rfl, rfl, rfl, rfl⟩

/-- `flag_use_half_precision` handed to `InferenceConfig` at lines
224-227: `True if precision == "fp16" else False`. -/
def flag_use_half_precision_of (precision : String) : Bool :=
  precision == "fp16"

/-- Outcome of the dtype resolution of `loadmodel` (lines 88-103): either
a resolved dtype string or the `AttributeError` raised when autodetection
fails on an old host. -/
def loadmodelDtype (precision : String) (isMps shouldUseFp16 : Bool)
    (autodetectAvailable : Bool) : Except String String :=
  if precision = "auto" then
    if autodetectAvailable then
      if isMps then Except.ok "fp32"
      else if shouldUseFp16 then Except.ok "fp16"
      else Except.ok "fp32"
    else
      Except.error "ComfyUI version too old"
  else
    Except.ok precision

/-- C8 -/
theorem half_precision_flag_iff_fp16 (precision : String) :
    (flag_use_half_precision_of precision = true ↔ precision = "fp16")
    ∧ (loadmodelDtype "auto" false true true = Except.ok "fp16")
    ∧ (flag_use_half_precision_of "auto" = false) := by
  refine ⟨?_, rfl, rfl⟩
  simp [flag_use_half_precision_of, beq_iff_eq]

/-- `cropper_init_config` of lines 390-393. -/
structure CropperCfg where
  keep_model_loaded : Bool
  onnx_device : String
deriving DecidableEq

/-- The node-instance attributes that persist across
`LivePortraitCropper.process` calls: `self.cropper` (a loaded `Cropper`,
identified here by a creation id, `none` when absent or released),
`self.current_config`, and a fresh-id counter standing for constructing
a new `Cropper(**cropper_init_config)`. -/
structure CropperNodeState where
  cropper : Option ℕ
  current_config : Option CropperCfg
  nextId : ℕ
deriving DecidableEq

/-- A `LivePortraitCropper` instance before its first `process` call:
neither `self.cropper` nor `self.current_config` exists yet. -/
def initialCropperNodeState : CropperNodeState := ⟨none, none, 0⟩

/-- Detector lifecycle of one `LivePortraitCropper.process` call:
lines 395-397 (`if not hasattr(self, 'cropper') or self.cropper is None
or self.current_config != cropper_init_config:` rebuild the Cropper and
record the config) and lines 419-421 (`if not keep_model_loaded:
self.cropper = None`). Returns the post-call state, the id of the
Cropper used for this call's cropping work, and whether a new Cropper
was constructed. -/
def cropperDetectorStep (s : CropperNodeState) (keep_model_loaded : Bool)
    (onnx_device : String) : CropperNodeState × ℕ × Bool :=
  let cfg : CropperCfg := ⟨keep_model_loaded, onnx_device⟩
  let init :=
    if s.cropper = none ∨ s.current_config ≠ some cfg then
      ((⟨some s.nextId, some cfg, s.nextId + 1⟩ : CropperNodeState),
        s.nextId, true)
    else
      (s, s.cropper.getD 0, false)
  let afterRelease :=
    if keep_model_loaded then init.1
    else { init.1 with cropper := none }
  (afterRelease, init.2)

/-- C7 -/
theorem cropper_detector_lifecycle (s : CropperNodeState)
    (k₁ k₂ : Bool) (d₁ d₂ : String) :
    (s.cropper = none → (cropperDetectorStep s k₁ d₁).2.2 = true)
    ∧ (k₁ = true → k₂ = true → d₂ = d₁ →
        (cropperDetectorStep (cropperDetectorStep s k₁ d₁).1 k₂ d₂).2.2
            = false
        ∧ (cropperDetectorStep (cropperDetectorStep s k₁ d₁).1 k₂ d₂).2.1
            = (cropperDetectorStep s k₁ d₁).2.1)
    ∧ ((⟨k₂, d₂⟩ : CropperCfg) ≠ ⟨k₁, d₁⟩ →
        (cropperDetectorStep (cropperDetectorStep s k₁ d₁).1 k₂ d₂).2.2
          = true)
    ∧ (k₁ = false →
        ((cropperDetectorStep s k₁ d₁).1.cropper = none
        ∧ (cropperDetectorStep (cropperDetectorStep s k₁ d₁).1 k₂ d₂).2.2
            = true)) := by
  by_cases hinit : s.cropper = none ∨ s.current_config ≠ some ⟨k₁, d₁⟩
  · refine ⟨fun _ => ?_, fun hk₁ hk₂ hd => ?_, fun hcfg => ?_,
      fun hk₁ => ?_⟩
    · simp [cropperDetectorStep, hinit]
    · subst hk₁ hk₂ hd
      simp [cropperDetectorStep, hinit]
    · rcases Bool.eq_false_or_eq_true k₁ with hk₁ | hk₁ <;> subst hk₁ <;>
        simp [cropperDetectorStep, hinit, hcfg, Ne.symm hcfg]
    · subst hk₁
      simp [cropperDetectorStep, hinit]
  · push_neg at hinit
    obtain ⟨hc, hcfg⟩ := hinit
    have hinit' : ¬ (s.cropper = none ∨
        s.current_config ≠ some (⟨k₁, d₁⟩ : CropperCfg)) := by
      push_neg
      exact ⟨hc, hcfg⟩
    refine ⟨fun h => absurd h hc, fun hk₁ hk₂ hd => ?_, fun hne => ?_,
      fun hk₁ => ?_⟩
    · subst hk₁ hk₂ hd
      simp [cropperDetectorStep, hinit', hc, hcfg]
    · rcases Bool.eq_false_or_eq_true k₁ with hk₁ | hk₁ <;> subst hk₁ <;>
        simp [cropperDetectorStep, hinit', hc, hcfg, hne, Ne.symm hne]
    · subst hk₁
      simp [cropperDetectorStep, hinit', hc, hcfg]

/-- Witness for C7: a fresh node, first call with (keep_model_loaded =
true, device "CPU"); a repeat call reuses the same detector without
rebuilding, and a call with a changed config rebuilds. -/
theorem cropper_detector_lifecycle_witness :
    ((cropperDetectorStep initialCropperNodeState true "CPU").2.2 = true)
    ∧ ((cropperDetectorStep
          (cropperDetectorStep initialCropperNodeState true "CPU").1
          true "CPU").2.2 = false)
    ∧ ((cropperDetectorStep
          (cropperDetectorStep initialCropperNodeState true "CPU").1
          true "CPU").2.1
        = (cropperDetectorStep initialCropperNodeState true "CPU").2.1)
    ∧ ((cropperDetectorStep
          (cropperDetectorStep initialCropperNodeState true "CUDA").1
          true "CPU").2.2 = true)
    ∧ ((cropperDetectorStep initialCropperNodeState false "CPU").1.cropper
        = none)
    ∧ ((cropperDetectorStep
          (cropperDetectorStep initialCropperNodeState false "CPU").1
          false "CPU").2.2 = true) := by
  refine ⟨(cropper_detector_lifecycle initialCropperNodeState true true
      "CPU" "CPU").1 rfl,
    ((cropper_detector_lifecycle initialCropperNodeState true true
      "CPU" "CPU").2.1 rfl rfl rfl).1,
    ((cropper_detector_lifecycle initialCropperNodeState true true
      "CPU" "CPU").2.1 rfl rfl rfl).2,
    (cropper_detector_lifecycle initialCropperNodeState true true
      "CUDA" "CPU").2.2.1 (by decide),
    ((cropper_detector_lifecycle initialCropperNodeState false false
      "CPU" "CPU").2.2.2 rfl).1,
    ((cropper_detector_lifecycle initialCropperNodeState false false
      "CPU" "CPU").2.2.2 rfl).2⟩

/-- Centroid of a landmark list — `keypoints.mean(axis=0)` (line 498):
the componentwise arithmetic mean. -/
def centroidOf (keypoints : List (ℚ × ℚ)) : ℚ × ℚ :=
  ((keypoints.map Prod.fst).sum / keypoints.length,
   (keypoints.map Prod.snd).sum / keypoints.length)

/-- Lines 498-507 of `KeypointScaler.process`, over exact rational
arithmetic: translate by minus the centroid, scale, translate back and
add the `(offset_x, offset_y)` offset. -/
def keypointScalerTransform (keypoints : List (ℚ × ℚ))
    (offset_x offset_y scale : ℚ) : List (ℚ × ℚ) :=
  let centroid := centroidOf keypoints
  let translated_keypoints :=
    keypoints.map (fun p => (p.1 - centroid.1, p.2 - centroid.2))
  let scaled_keypoints :=
    translated_keypoints.map (fun p => (p.1 * scale, p.2 * scale))
  scaled_keypoints.map
    (fun p => (p.1 + centroid.1 + offset_x, p.2 + centroid.2 + offset_y))

/-- C9 -/
theorem keypoint_scaler_formula (keypoints : List (ℚ × ℚ))
    (offset_x offset_y scale : ℚ) :
    ((keypointScalerTransform keypoints offset_x offset_y scale).length
        = keypoints.length)
    ∧ (∀ i : Fin keypoints.length,
        (keypointScalerTransform keypoints offset_x offset_y scale).get
            ⟨i, by simp [keypointScalerTransform]⟩
          = (((keypoints.get i).1 - (centroidOf keypoints).1) * scale
                + (centroidOf keypoints).1 + offset_x,
             ((keypoints.get i).2 - (centroidOf keypoints).2) * scale
                + (centroidOf keypoints).2 + offset_y))
    ∧ (keypointScalerTransform keypoints 0 0 1 = keypoints) := by
  refine ⟨by simp [keypointScalerTransform], ?_, ?_⟩
  · intro i
    simp [keypointScalerTransform, List.get_eq_getElem, List.getElem_map]
  · refine List.ext_getElem (by simp [keypointScalerTransform]) ?_
    intro n h1 h2
    simp only [keypointScalerTransform, List.getElem_map]
    refine Prod.ext ?_ ?_ <;> simp

/-- The nested `crop_info['crop_info']` dictionary as far as
`KeypointScaler.process` touches it: its `lmk_crop` entry, plus an
opaque remainder standing for the other entries. -/
structure CropInfoObj where
  lmk_crop : List (ℚ × ℚ)
  rest : ℕ
deriving DecidableEq

/-- A heap of CROPINFO objects addressed by reference. -/
def CropStore : Type := ℕ → CropInfoObj

/-- `KeypointScaler.process` (lines 492-523) on the store: it reads
`crop_info['crop_info']['lmk_crop']` (via `.copy()`, so the transform
works on a copy), computes the transformed landmarks, assigns them back
into the same object (line 509), and returns that same object
(line 523) together with the rendered keypoint image (not modelled). -/
def keypointScalerProcess (store : CropStore) (r : ℕ)
    (offset_x offset_y scale : ℚ) : CropStore × ℕ :=
  let keypoints := (store r).lmk_crop
  let final_keypoints :=
    keypointScalerTransform keypoints offset_x offset_y scale
  (fun r2 => if r2 = r then { store r with lmk_crop := final_keypoints }
             else store r2,
   r)

/-- C10 -/
theorem keypoint_scaler_mutates_input (store : CropStore) (r : ℕ)
    (offset_x offset_y scale : ℚ) :
    ((keypointScalerProcess store r offset_x offset_y scale).2 = r)
    ∧ (((keypointScalerProcess store r offset_x offset_y scale).1
          ((keypointScalerProcess store r offset_x offset_y scale).2)
         ).lmk_crop
        = keypointScalerTransform (store r).lmk_crop offset_x offset_y
            scale)
    ∧ (((keypointScalerProcess store r offset_x offset_y scale).1 r).rest
        = (store r).rest)
    ∧ (∀ r2, r2 ≠ r →
        (keypointScalerProcess store r offset_x offset_y scale).1 r2
          = store r2)
    ∧ (keypointScalerTransform (store r).lmk_crop offset_x offset_y scale
          ≠ (store r).lmk_crop →
        ((keypointScalerProcess store r offset_x offset_y scale).1
            ((keypointScalerProcess store r offset_x offset_y scale).2)
           ).lmk_crop
          ≠ (store r).lmk_crop) := by
  refine ⟨rfl, by simp [keypointScalerProcess], ?_, ?_, ?_⟩
  · simp [keypointScalerProcess]
  · intro r2 h2
    simp [keypointScalerProcess, h2]
  · intro hne
    simpa [keypointScalerProcess] using hne

/-- Witness for C10: two landmarks, unit scale, offset (1, 0); the
returned reference is the input reference, its `lmk_crop` now holds the
shifted landmarks (so the original data is gone from it), and the
distinct object at reference 1 is untouched. -/
theorem keypoint_scaler_mutates_input_witness :
    (((keypointScalerProcess (fun _ => ⟨[(0, 0), (2, 0)], 7⟩) 0 1 0 1).2
        = 0)
    ∧ (((keypointScalerProcess (fun _ => ⟨[(0, 0), (2, 0)], 7⟩) 0 1 0 1).1
          ((keypointScalerProcess (fun _ => ⟨[(0, 0), (2, 0)], 7⟩)
              0 1 0 1).2)).lmk_crop
        = keypointScalerTransform
            ((fun _ : ℕ => (⟨[(0, 0), (2, 0)], 7⟩ : CropInfoObj)) 0
              ).lmk_crop 1 0 1)
    ∧ (((keypointScalerProcess (fun _ => ⟨[(0, 0), (2, 0)], 7⟩) 0 1 0 1).1
          0).rest = 7)
    ∧ ((keypointScalerProcess (fun _ => ⟨[(0, 0), (2, 0)], 7⟩)
            0 1 0 1).1 1
          = (fun _ : ℕ => (⟨[(0, 0), (2, 0)], 7⟩ : CropInfoObj)) 1)
    ∧ (((keypointScalerProcess (fun _ => ⟨[(0, 0), (2, 0)], 7⟩) 0 1 0 1).1
          ((keypointScalerProcess (fun _ => ⟨[(0, 0), (2, 0)], 7⟩)
              0 1 0 1).2)).lmk_crop
        ≠ ((fun _ : ℕ => (⟨[(0, 0), (2, 0)], 7⟩ : CropInfoObj)) 0
            ).lmk_crop)) := by
  refine ⟨(keypoint_scaler_mutates_input
      (fun _ => ⟨[(0, 0), (2, 0)], 7⟩) 0 1 0 1).1,
    (keypoint_scaler_mutates_input
      (fun _ => ⟨[(0, 0), (2, 0)], 7⟩) 0 1 0 1).2.1,
    (keypoint_scaler_mutates_input
      (fun _ => ⟨[(0, 0), (2, 0)], 7⟩) 0 1 0 1).2.2.1,
    (keypoint_scaler_mutates_input
      (fun _ => ⟨[(0, 0), (2, 0)], 7⟩) 0 1 0 1).2.2.2.1 1 (by decide),
    (keypoint_scaler_mutates_input
      (fun _ => ⟨[(0, 0), (2, 0)], 7⟩) 0 1 0 1).2.2.2.2
      (by norm_num [keypointScalerTransform, centroidOf])⟩

end LivePortrait
